import Mathlib

/-!
Shallow embedding of the demo programs in `src/app.cpp` and `src/learn.cpp`
of the `lrncpp` repository, together with proofs about the behaviour the
specification ascribes to them.

The Collection Demo (`vector_remove_erase_idiom` in `learn.cpp`) filters a
`std::vector<int>` in place by the remove–erase idiom: `std::remove` /
`std::remove_if` compact the kept elements to the front of the vector and
return the new logical end, after which `erase` truncates the vector there.
The vector is modelled as a `List Int`; `std::remove`'s effect on the buffer
is modelled exactly: the kept elements (in order) occupy the front, while
positions at or past the returned new end are never written and therefore
retain the original buffer's values.
-/

/-- Effect of `std::remove_if(begin(v), end(v), p)` on the whole buffer,
paired with the offset of the returned iterator.  Elements not satisfying
`p` are compacted to the front in their original order; positions past the
new logical end are never assigned, so they keep the original values. -/
def stdRemoveIf (p : Int → Bool) (v : List Int) : List Int × Nat :=
  let kept := v.filter (fun x => !(p x))
  (kept ++ v.drop kept.length, kept.length)

/-- Effect of `std::remove(begin(v), end(v), t)`: `stdRemoveIf` with the
equality-to-`t` predicate. -/
def stdRemove (t : Int) (v : List Int) : List Int × Nat :=
  stdRemoveIf (fun x => x == t) v

/-- `v.erase(newEnd, end(v))`: truncate the buffer at offset `newEnd`. -/
def eraseToEnd (v : List Int) (newEnd : Nat) : List Int :=
  v.take newEnd

/-- The complete remove-by-predicate pass of the idiom:
`v.erase(remove_if(begin(v), end(v), p), end(v))` (learn.cpp line 53). -/
def removeEraseIf (p : Int → Bool) (v : List Int) : List Int :=
  let r := stdRemoveIf p v
  eraseToEnd r.1 r.2

/-- The complete remove-by-value pass of the idiom:
`std::remove` for target `t` followed by `erase` (learn.cpp lines 48, 50). -/
def removeErase (v : List Int) (t : Int) : List Int :=
  removeEraseIf (fun x => x == t) v

/-- The lambda `[](int i) { return i % 2 != 0; }` (learn.cpp line 52).
C++ `%` on `int` truncates toward zero, which is `Int.tmod`. -/
def is_odd (i : Int) : Bool := Int.tmod i 2 != 0

/-- The initial vector `{1, 2, 3, 2, 5, 2, 6, 2, 4, 8}` (learn.cpp line 46). -/
def demoOriginal : List Int := [1, 2, 3, 2, 5, 2, 6, 2, 4, 8]

/-- The four vector states printed by `vector_remove_erase_idiom`, in print
order: Original, After Remove (the full buffer after `std::remove` but
before `erase`), After Erase, After Odd Del. -/
def demoTrace : List (List Int) :=
  let v0 := demoOriginal
  let r1 := stdRemove 2 v0
  let v1 := r1.1
  let v2 := eraseToEnd v1 r1.2
  let r2 := stdRemoveIf is_odd v2
  let v3 := eraseToEnd r2.1 r2.2
  [v0, v1, v2, v3]

/-- The conceptual filtered sequence holding after each print of the demo,
as the specification describes the steps: the original sequence, then the
sequence with every `2` removed (claimed for both the After Remove and the
After Erase prints), then the sequence with every odd value removed. -/
def conceptualTrace : List (List Int) :=
  let v0 := demoOriginal
  let v1 := v0.filter (fun x => !(x == 2))
  let v2 := v1.filter (fun x => !(is_odd x))
  [v0, v1, v1, v2]

/-- The record printed by the demos.  Modelled from the spec: the struct
`person` is declared in the headers `learn/learn.hpp` / `basic/app.h`,
which are not part of the provided sources; the spec gives its two fields,
`name` (text) and `age` (integer). -/
structure Person where
  name : String
  age : Int

/-- `operator<<(std::ostream&, const person&)` (learn.cpp lines 19–21),
read as the string it appends to the stream. -/
def personToString (p : Person) : String :=
  "(person [" ++ p.name ++ "," ++ toString p.age ++ "])"

/-- The call-site metadata captured by
`std::experimental::source_location::current()`: file name and line. -/
structure SourceLocation where
  fileName : String
  line : Nat

/-- The `log` function (app.cpp lines 7–13, learn.cpp lines 11–17), read as
the text it writes to standard output for one call. -/
def logLine (message : String) (loc : SourceLocation) : String :=
  "info:" ++ loc.fileName ++ ":" ++ toString loc.line ++ " " ++ message ++ "\n"

/-- Standard output of `main` in `app.cpp` (lines 15–21), as a function of
the compile-time call-site constants baked into the `log` call on line 19.
It prints a greeting, the `name` field of `person {"bingo", 23}`, and one
log line. -/
def appMainOutput (logSite : SourceLocation) : String :=
  "Hello, World!\n" ++ "P.name = " ++ (Person.mk "bingo" 23).name ++ "\n" ++
    logLine "Logging Hello world!" logSite

/-- Standard output of `main` in `learn.cpp` (which calls only
`vector_remove_erase_idiom`), as a function of the vector pretty-printer
`pp` supplied by the header `learn/prettyprint.hpp`, which is not part of
the provided sources. -/
def learnMainOutput (pp : List Int → String) : String :=
  "Original      : " ++ pp (demoTrace.getD 0 []) ++ "\n" ++
  "After Remove  : " ++ pp (demoTrace.getD 1 []) ++ "\n" ++
  "After Erase   : " ++ pp (demoTrace.getD 2 []) ++ "\n" ++
  "After Odd Del : " ++ pp (demoTrace.getD 3 []) ++ "\n"

/-- The net effect of one remove–erase pass is exactly `List.filter` with
the negated predicate: truncating the compacted buffer at the returned new
end leaves precisely the kept elements. -/
theorem removeEraseIf_eq_filter (p : Int → Bool) (v : List Int) :
    removeEraseIf p v = v.filter (fun x => !(p x)) := by
  unfold removeEraseIf stdRemoveIf eraseToEnd
  simp only
  exact List.take_left _ _

/-- Remove-by-value as a filter. -/
theorem removeErase_eq_filter (v : List Int) (t : Int) :
    removeErase v t = v.filter (fun x => !(x == t)) :=
  removeEraseIf_eq_filter _ v

/-- C1: remove-by-value on `[1,2,3,2,5,2,6,2,4,8]` with target `2` yields
exactly `[1,3,5,6,4,8]`. -/
theorem spec_C1 :
    removeErase [1, 2, 3, 2, 5, 2, 6, 2, 4, 8] 2 = [1, 3, 5, 6, 4, 8] := by
  decide

/-- C2: remove-by-predicate with the odd-parity predicate on
`[1,3,5,6,4,8]` yields exactly `[6,4,8]`. -/
theorem spec_C2 :
    removeEraseIf is_odd [1, 3, 5, 6, 4, 8] = [6, 4, 8] := by
  decide

/-- C3: order preservation — for every sequence, target and predicate, the
result of either filter is the input with the removed elements deleted and
nothing reordered, i.e. exactly a `List.filter` of the input. -/
theorem spec_C3 (v : List Int) (t : Int) (p : Int → Bool) :
    removeErase v t = v.filter (fun x => !(x == t)) ∧
    removeEraseIf p v = v.filter (fun x => !(p x)) :=
  ⟨removeErase_eq_filter v t, removeEraseIf_eq_filter p v⟩

/-- C4: removing a value that does not occur in the sequence returns the
sequence unchanged. -/
theorem spec_C4 (v : List Int) (t : Int) (h : t ∉ v) :
    removeErase v t = v := by
  rw [removeErase_eq_filter]
  apply List.filter_eq_self.mpr
  intro a ha
  have : (a == t) = false := beq_eq_false_iff_ne.mpr (fun he => h (he ▸ ha))
  simp [this]

/-- Witness for C4 at the concrete input `[1,3,5,6,4,8]`, target `2`. -/
theorem spec_C4_witness :
    (2 : Int) ∉ ([1, 3, 5, 6, 4, 8] : List Int) ∧
    removeErase [1, 3, 5, 6, 4, 8] 2 = [1, 3, 5, 6, 4, 8] :=
  ⟨by decide, spec_C4 [1, 3, 5, 6, 4, 8] 2 (by decide)⟩

/-- C5: totality of the filters — both are total functions (a result exists
for every input), and on the empty sequence each yields the empty
sequence. -/
theorem spec_C5 :
    (∀ t : Int, removeErase [] t = []) ∧
    (∀ p : Int → Bool, removeEraseIf p [] = []) ∧
    (∀ (v : List Int) (t : Int), ∃ w, removeErase v t = w) ∧
    (∀ (v : List Int) (p : Int → Bool), ∃ w, removeEraseIf p v = w) :=
  ⟨fun _ => rfl, fun _ => rfl, fun _ _ => ⟨_, rfl⟩, fun _ _ => ⟨_, rfl⟩⟩

/-- C6: the person formatter produces exactly
`(person [<name>,<age>])` for every record, and in particular
`(person [bingo,23])` for name `"bingo"` and age `23`. -/
theorem spec_C6 :
    personToString ⟨"bingo", 23⟩ = "(person [bingo,23])" ∧
    ∀ (n : String) (a : Int),
      personToString ⟨n, a⟩ = "(person [" ++ n ++ "," ++ toString a ++ "])" :=
  ⟨rfl, fun _ _ => rfl⟩

/-- C7: the logger emits exactly one line of the form
`info:<file>:<line> <message>` followed by a newline; for the message
`"Logging Hello world!"` and any call site with nonempty file name and
positive line number, the emitted line matches the pattern
`info:<nonempty-file-path>:<positive-integer> Logging Hello world!`. -/
theorem spec_C7 (file : String) (line : Nat) (hf : file ≠ "") (hl : 0 < line) :
    (∀ (msg : String) (loc : SourceLocation),
      logLine msg loc =
        "info:" ++ loc.fileName ++ ":" ++ toString loc.line ++ " " ++ msg ++ "\n") ∧
    ∃ f n, f ≠ "" ∧ 0 < n ∧
      logLine "Logging Hello world!" ⟨file, line⟩ =
        "info:" ++ f ++ ":" ++ toString n ++ " " ++ "Logging Hello world!" ++ "\n" :=
  ⟨fun _ _ => rfl, ⟨file, line, hf, hl, rfl⟩⟩

/-- Witness for C7 at the call site of app.cpp line 19. -/
theorem spec_C7_witness :
    ("app.cpp" : String) ≠ "" ∧ 0 < 19 ∧
    logLine "Logging Hello world!" ⟨"app.cpp", 19⟩ =
      "info:app.cpp:19 Logging Hello world!\n" :=
  ⟨by decide, by decide, by
    have h := (spec_C7 "app.cpp" 19 (by decide) (by decide)).1
      "Logging Hello world!" ⟨"app.cpp", 19⟩
    rw [h]; decide⟩

/-- C8 counterexample: the claim that every printed sequence of the demo is
the conceptual filtered sequence holding at that step is false — the
"After Remove" print (index 1 of the trace) shows the full ten-element
buffer after `std::remove`, not the six-element filtered sequence. -/
theorem spec_C8_counterexample :
    demoTrace.getD 1 [] = [1, 3, 5, 6, 4, 8, 6, 2, 4, 8] ∧
    conceptualTrace.getD 1 [] = [1, 3, 5, 6, 4, 8] ∧
    demoTrace ≠ conceptualTrace := by
  refine ⟨by decide, by decide, ?_⟩
  decide

/-- C8 amended: the sequences printed as Original, After Erase and After
Odd Del are the conceptual filtered sequences; the After Remove print shows
the full buffer after `std::remove`, whose prefix is the filtered sequence
followed by the untouched tail of the original buffer. -/
theorem spec_C8_amended :
    demoTrace =
      [[1, 2, 3, 2, 5, 2, 6, 2, 4, 8], [1, 3, 5, 6, 4, 8, 6, 2, 4, 8],
        [1, 3, 5, 6, 4, 8], [6, 4, 8]] ∧
    demoTrace.getD 0 [] = demoOriginal ∧
    demoTrace.getD 2 [] = demoOriginal.filter (fun x => !(x == 2)) ∧
    demoTrace.getD 3 [] =
      (demoOriginal.filter (fun x => !(x == 2))).filter (fun x => !(is_odd x)) ∧
    demoTrace.getD 1 [] =
      demoOriginal.filter (fun x => !(x == 2)) ++ demoOriginal.drop 6 := by
  refine ⟨by decide, by decide, by decide, by decide, by decide⟩

/-- C9: determinism of both entry points — each demo's output is a function
of compile-time constants only (for `app.cpp`, the call-site metadata of the
`log` call; for `learn.cpp`, the pretty-printer from the header), so any two
runs of the same compiled program produce identical standard-output text. -/
theorem spec_C9 :
    (∀ (pp : List Int → String) (o1 o2 : String),
      o1 = learnMainOutput pp → o2 = learnMainOutput pp → o1 = o2) ∧
    (∀ (site : SourceLocation) (o1 o2 : String),
      o1 = appMainOutput site → o2 = appMainOutput site → o1 = o2) :=
  ⟨fun _ _ _ h1 h2 => h1.trans h2.symm, fun _ _ _ h1 h2 => h1.trans h2.symm⟩

/-- Witness for C9 at concrete printer and call site. -/
theorem spec_C9_witness :
    learnMainOutput (fun l => toString l) = learnMainOutput (fun l => toString l) ∧
    appMainOutput ⟨"app.cpp", 19⟩ = appMainOutput ⟨"app.cpp", 19⟩ :=
  ⟨spec_C9.1 (fun l => toString l) _ _ rfl rfl,
   spec_C9.2 ⟨"app.cpp", 19⟩ _ _ rfl rfl⟩

/-- C10: the output of either filter is a sublist of its input — obtained
only by deleting elements, hence no value introduced, duplicated or
modified, and the output length is at most the input length. -/
theorem spec_C10 (v : List Int) (p : Int → Bool) (t : Int) :
    List.Sublist (removeEraseIf p v) v ∧
    (removeEraseIf p v).length ≤ v.length ∧
    List.Sublist (removeErase v t) v ∧
    (removeErase v t).length ≤ v.length := by
  rw [removeEraseIf_eq_filter, removeErase_eq_filter]
  exact ⟨List.filter_sublist v, (List.filter_sublist v).length_le,
    List.filter_sublist v, (List.filter_sublist v).length_le⟩
